import Mathlib

/-
  Verification development for the react-image-lightbox gesture/viewport engine
  (src/react-image-lightbox.tsx).  Numbers are modelled as exact rationals;
  the component's instance fields and React state are gathered into explicit
  state records, and each handler method becomes a pure state-transforming
  function translated line by line from the source.
-/

namespace Lightbox

/-- The Action enum of constant.ts (gesture currently driving move events). -/
inductive Action
  | NONE
  | MOVE
  | SWIPE
  | PINCH
deriving DecidableEq, Repr

/-- The Source enum of constant.ts (which input API owns the interaction). -/
inductive Source
  | ANY
  | MOUSE
  | TOUCH
  | POINTER
deriving DecidableEq, Repr

/-- Navigation direction requested by requestMove. -/
inductive Dir
  | prev
  | next
deriving DecidableEq, Repr

/-- Pointer identity: the literal string id of a mouse, or a numeric
touch/pointer contact id. -/
inductive PId
  | mouse
  | num (n : ℤ)
deriving DecidableEq, Repr

/-- ParsedEvent from react-image-lightbox.tsx: a normalized pointer sample. -/
structure ParsedEvent where
  id : PId
  source : Source
  x : ℚ
  y : ℚ
deriving DecidableEq, Repr

/-- The zoom/offset part of React state (State.zoomLevel/offsetX/offsetY). -/
structure ViewportState where
  zoomLevel : ℚ
  offsetX : ℚ
  offsetY : ℚ
deriving DecidableEq, Repr

/-- Result of getLightboxRect: the viewport rectangle. -/
structure Rect where
  width : ℚ
  height : ℚ
  left : ℚ
  top : ℚ
deriving DecidableEq, Repr

/-- Natural size of the current image as held in the image cache; this is what
getBestImageForType returns in its width/height fields. -/
structure ImgInfo where
  width : ℚ
  height : ℚ
deriving DecidableEq, Repr

/-- Result record of getMaxOffsets. -/
structure MaxOffsets where
  maxX : ℚ
  maxY : ℚ
  minX : ℚ
  minY : ℚ
deriving DecidableEq, Repr

/-- Ambient data a handler invocation reads: configuration constants and
props (enableZoom, animation settings, prevSrc/nextSrc presence), the
viewport rectangle from getLightboxRect, and the resolved current-image
info from getBestImageForType.

The fields mult and sqrtFn are modelled from the spec: constant.ts (with
MIN_ZOOM_LEVEL, MAX_ZOOM_LEVEL, the zoom ratio and MIN_SWIPE_DISTANCE) is not
under src/, and the spec says the display multiplier is the configured ratio
raised to the zoom level, a positive strictly increasing real function that
leaves ℚ for fractional levels, so it is kept as an abstract function field;
sqrtFn models Math.sqrt, which likewise leaves ℚ. -/
structure Env where
  enableZoom : Bool
  minZoom : ℚ
  maxZoom : ℚ
  mult : ℚ → ℚ
  sqrtFn : ℚ → ℚ
  box : Rect
  image : Option ImgInfo
  animationDisabled : Bool
  animationOnKeyInput : Bool
  animationDuration : ℚ
  minSwipeDistance : ℚ
  prevSrc : Bool
  nextSrc : Bool

/-- The mutable instance fields and React state of the component that the
gesture engine touches.  scheduled records the durations of timeouts created
through the setTimeout wrapper during the modelled handler calls. -/
structure EngineState where
  vp : ViewportState
  shouldAnimate : Bool
  isClosing : Bool
  currentAction : Action
  eventsSource : Source
  pointerList : List ParsedEvent
  moveStartX : ℚ
  moveStartY : ℚ
  moveStartOffsetX : ℚ
  moveStartOffsetY : ℚ
  swipeStartX : ℚ
  swipeStartY : ℚ
  swipeEndX : ℚ
  swipeEndY : ℚ
  pinchTouchList : List ParsedEvent
  pinchDistance : ℚ
  keyPressed : Bool
  moveRequested : Bool
  keyCounter : ℤ
  scheduled : List ℚ
deriving DecidableEq, Repr

/-- Math.min on rationals. -/
def minQ (a b : ℚ) : ℚ :=
  if a < b then a else b

/-- Math.max on rationals. -/
def maxQ (a b : ℚ) : ℚ :=
  if a < b then b else a

/-- Math.max(lo, Math.min(hi, x)), the clamping pattern used by changeZoom and
handleMoveEnd. -/
def clampQ (lo hi x : ℚ) : ℚ :=
  maxQ lo (minQ hi x)

/-- isAnimating: component parts are animating (shouldAnimate or isClosing). -/
def isAnimating (s : EngineState) : Bool :=
  s.shouldAnimate || s.isClosing

/-- getMaxOffsets, translated from the source; reads the current image info
and box rect from the environment and takes the zoom level it is evaluated
at (the source reads this.state.zoomLevel). -/
def getMaxOffsets (env : Env) (zoomLevel : ℚ) : MaxOffsets :=
  match env.image with
  | none => ⟨0, 0, 0, 0⟩
  | some img =>
    let m := env.mult zoomLevel
    let mx :=
      if m * img.width - env.box.width < 0 then
        (env.box.width - m * img.width) / 2
      else
        (m * img.width - env.box.width) / 2
    let my :=
      if m * img.height - env.box.height < 0 then
        (env.box.height - m * img.height) / 2
      else
        (m * img.height - env.box.height) / 2
    ⟨mx, my, -1 * mx, -1 * my⟩

/-- The pointerX computation of changeZoom: a given clientX is made relative
to the box, and the box center is the default anchor. -/
def pointerXOf (env : Env) (clientX : Option ℚ) : ℚ :=
  match clientX with
  | some cx => cx - env.box.left
  | none => env.box.width / 2

/-- The pointerY computation of changeZoom. -/
def pointerYOf (env : Env) (clientY : Option ℚ) : ℚ :=
  match clientY with
  | some cy => cy - env.box.top
  | none => env.box.height / 2

/-- changeZoom, translated from the source.  The gesture currently running
(this.currentAction) is passed explicitly, as is the viewport state; the
environment supplies enableZoom, the zoom bounds, the multiplier function,
the box rect and the current image info. -/
def changeZoom (env : Env) (action : Action) (vp : ViewportState)
    (zoomLevel : ℚ) (clientX clientY : Option ℚ) : ViewportState :=
  if env.enableZoom = false then vp
  else
    let next := clampQ env.minZoom env.maxZoom zoomLevel
    if next = vp.zoomLevel then vp
    else if next = env.minZoom then ⟨next, 0, 0⟩
    else
      match env.image with
      | none => vp
      | some img =>
        let curM := env.mult vp.zoomLevel
        let nextM := env.mult next
        let pointerX := pointerXOf env clientX
        let pointerY := pointerYOf env clientY
        let curImageOffsetX := (env.box.width - img.width * curM) / 2
        let curImageOffsetY := (env.box.height - img.height * curM) / 2
        let curRealX := curImageOffsetX - vp.offsetX
        let curRealY := curImageOffsetY - vp.offsetY
        let relX := (pointerX - curRealX) / curM
        let relY := (pointerY - curRealY) / curM
        let nextRealX := pointerX - relX * nextM
        let nextRealY := pointerY - relY * nextM
        let nextImageOffsetX := (env.box.width - img.width * nextM) / 2
        let nextImageOffsetY := (env.box.height - img.height * nextM) / 2
        let nX := nextImageOffsetX - nextRealX
        let nY := nextImageOffsetY - nextRealY
        if action ≠ Action.PINCH ∧ next < vp.zoomLevel then
          let mo := getMaxOffsets env vp.zoomLevel
          ⟨next, clampQ mo.minX mo.maxX nX, clampQ mo.minY mo.maxY nY⟩
        else ⟨next, nX, nY⟩

/-- changeZoom acting on the full engine state (this.setState on zoom/offset
fields; currentAction is read from the state). -/
def changeZoomE (env : Env) (s : EngineState) (zoomLevel : ℚ)
    (clientX clientY : Option ℚ) : EngineState :=
  { s with vp := changeZoom env s.currentAction s.vp zoomLevel clientX clientY }

/-- The image-space coordinate currently sitting under a box-relative anchor
point, horizontally: the currentPointerXRelativeToImage expression of
changeZoom as a function of the zoom level and offset. -/
def anchorImageX (env : Env) (img : ImgInfo) (zoomLevel offX px : ℚ) : ℚ :=
  (px - ((env.box.width - img.width * env.mult zoomLevel) / 2 - offX)) /
    env.mult zoomLevel

/-- The image-space coordinate under a box-relative anchor point, vertically. -/
def anchorImageY (env : Env) (img : ImgInfo) (zoomLevel offY py : ℚ) : ℚ :=
  (py - ((env.box.height - img.height * env.mult zoomLevel) / 2 - offY)) /
    env.mult zoomLevel

/-- shouldHandleEvent, translated from the source: given the incoming source
and the current (eventsSource, pointerList), returns whether the event is
handled together with the updated eventsSource and pointerList. -/
def shouldHandleEvent (source : Source) (es : Source)
    (pl : List ParsedEvent) : Bool × Source × List ParsedEvent :=
  if es = source then (true, es, pl)
  else if es = Source.ANY then (true, source, pl)
  else
    match source with
    | Source.MOUSE => (false, es, pl)
    | Source.TOUCH =>
      (true, Source.TOUCH, pl.filter (fun p => p.source = Source.TOUCH))
    | Source.POINTER =>
      if es = Source.MOUSE then
        (true, Source.POINTER, pl.filter (fun p => p.source = Source.POINTER))
      else (false, es, pl)
    | Source.ANY => (false, es, pl)

/-- handleMoveStart: record the pan start position and offset. -/
def handleMoveStart (env : Env) (s : EngineState) (p : ParsedEvent) :
    EngineState :=
  if env.enableZoom = false then s
  else
    { s with
      currentAction := Action.MOVE
      moveStartX := p.x
      moveStartY := p.y
      moveStartOffsetX := s.vp.offsetX
      moveStartOffsetY := s.vp.offsetY }

/-- handleMove: apply the drag delta to the offset (no clamping here). -/
def handleMove (s : EngineState) (p : ParsedEvent) : EngineState :=
  let newOffsetX := s.moveStartX - p.x + s.moveStartOffsetX
  let newOffsetY := s.moveStartY - p.y + s.moveStartOffsetY
  if s.vp.offsetX ≠ newOffsetX ∨ s.vp.offsetY ≠ newOffsetY then
    { s with vp := { s.vp with offsetX := newOffsetX, offsetY := newOffsetY } }
  else s

/-- handleMoveEnd: reset the pan bookkeeping and snap the offset back into
the range given by getMaxOffsets, animating the correction if it changed. -/
def handleMoveEnd (env : Env) (s : EngineState) : EngineState :=
  let s0 :=
    { s with
      currentAction := Action.NONE
      moveStartX := 0
      moveStartY := 0
      moveStartOffsetX := 0
      moveStartOffsetY := 0 }
  let mo := getMaxOffsets env s.vp.zoomLevel
  let nextOffsetX := clampQ mo.minX mo.maxX s.vp.offsetX
  let nextOffsetY := clampQ mo.minY mo.maxY s.vp.offsetY
  if nextOffsetX ≠ s.vp.offsetX ∨ nextOffsetY ≠ s.vp.offsetY then
    { s0 with
      vp := { s0.vp with offsetX := nextOffsetX, offsetY := nextOffsetY }
      shouldAnimate := true
      scheduled := s0.scheduled ++ [env.animationDuration] }
  else s0

/-- handleSwipeStart: record the swipe start and current position. -/
def handleSwipeStart (s : EngineState) (p : ParsedEvent) : EngineState :=
  { s with
    currentAction := Action.SWIPE
    swipeStartX := p.x
    swipeStartY := p.y
    swipeEndX := p.x
    swipeEndY := p.y }

/-- handleSwipe: track only the latest position. -/
def handleSwipe (s : EngineState) (p : ParsedEvent) : EngineState :=
  { s with swipeEndX := p.x, swipeEndY := p.y }

/-- requestMove: reset the viewport and error state for a navigation, enable
the animated state when applicable, and bump the key counter. -/
def requestMove (env : Env) (dir : Dir) (s : EngineState) : EngineState :=
  let animate :=
    env.animationDisabled = false ∧
      (s.keyPressed = false ∨ env.animationOnKeyInput = true)
  { s with
    vp := ⟨env.minZoom, 0, 0⟩
    shouldAnimate := if animate then true else s.shouldAnimate
    scheduled :=
      if animate then s.scheduled ++ [env.animationDuration] else s.scheduled
    keyPressed := false
    moveRequested := true
    keyCounter :=
      if dir = Dir.prev then s.keyCounter - 1 else s.keyCounter + 1 }

/-- handleSwipeEnd: decide whether the finished swipe commits a navigation.
The event argument of the source is modelled by the Bool ev (an end event
exists); the committed direction, if any, is returned alongside the state. -/
def handleSwipeEnd (env : Env) (ev : Bool) (s : EngineState) :
    EngineState × Option Dir :=
  let xDiff := s.swipeEndX - s.swipeStartX
  let xDiffAbs := |xDiff|
  let yDiffAbs := |s.swipeEndY - s.swipeStartY|
  let s0 :=
    { s with
      currentAction := Action.NONE
      swipeStartX := 0
      swipeStartY := 0
      swipeEndX := 0
      swipeEndY := 0 }
  if ev = false ∨ isAnimating s = true ∨ xDiffAbs < yDiffAbs * (3 / 2) then
    (s0, none)
  else if xDiffAbs < env.minSwipeDistance ∧ xDiffAbs < env.box.width / 4 then
    (s0, none)
  else if 0 < xDiff ∧ env.prevSrc = true then
    (requestMove env Dir.prev s0, some Dir.prev)
  else if xDiff < 0 ∧ env.nextSrc = true then
    (requestMove env Dir.next s0, some Dir.next)
  else (s0, none)

/-- calculatePinchDistance: Euclidean distance of the first two samples,
via the environment's model of Math.sqrt. -/
def calcPinchDistance (env : Env) (l : List ParsedEvent) : ℚ :=
  match l with
  | a :: b :: _ => env.sqrtFn ((a.x - b.x) ^ 2 + (a.y - b.y) ^ 2)
  | _ => 0

/-- calculatePinchCenter: a - (a - b) / 2 componentwise on the first two
samples. -/
def calcPinchCenter (l : List ParsedEvent) : ℚ × ℚ :=
  match l with
  | a :: b :: _ => (a.x - (a.x - b.x) / 2, a.y - (a.y - b.y) / 2)
  | _ => (0, 0)

/-- handlePinchStart: snapshot both samples and the initial distance. -/
def handlePinchStart (env : Env) (s : EngineState)
    (pointerList : List ParsedEvent) : EngineState :=
  if env.enableZoom = false then s
  else
    { s with
      currentAction := Action.PINCH
      pinchTouchList := pointerList
      pinchDistance := calcPinchDistance env pointerList }

/-- The pinch re-matching step of handlePinch: every snapshot sample is
replaced by the incoming sample with the same id, unmatched ids keeping
their last known position. -/
def pinchMatched (s : EngineState) (incoming : List ParsedEvent) :
    List ParsedEvent :=
  s.pinchTouchList.map (fun old =>
    match incoming.find? (fun p => p.id = old.id) with
    | some q => q
    | none => old)

/-- handlePinch: re-match the snapshot, compute the new distance, feed
zoomLevel + newDistance - pinchDistance to changeZoom anchored at the pinch
center, and store the new distance. -/
def handlePinch (env : Env) (s : EngineState) (incoming : List ParsedEvent) :
    EngineState :=
  let matched := pinchMatched s incoming
  let newDistance := calcPinchDistance env matched
  let zoomLevel := s.vp.zoomLevel + newDistance - s.pinchDistance
  let s1 := { s with pinchTouchList := matched, pinchDistance := newDistance }
  let c := calcPinchCenter matched
  changeZoomE env s1 zoomLevel (some c.1) (some c.2)

/-- handlePinchEnd: clear the pinch snapshot. -/
def handlePinchEnd (s : EngineState) : EngineState :=
  { s with
    currentAction := Action.NONE
    pinchTouchList := []
    pinchDistance := 0 }

/-- handleEnd: dispatch to the end handler of the current gesture; returns
any committed swipe direction. -/
def handleEnd (env : Env) (ev : Bool) (s : EngineState) :
    EngineState × Option Dir :=
  match s.currentAction with
  | Action.MOVE => (handleMoveEnd env s, none)
  | Action.SWIPE => handleSwipeEnd env ev s
  | Action.PINCH => (handlePinchEnd s, none)
  | Action.NONE => (s, none)

/-- decideMoveOrSwipe: a single fresh pointer starts a swipe at minimum zoom
and a pan otherwise. -/
def decideMoveOrSwipe (env : Env) (s : EngineState) (p : ParsedEvent) :
    EngineState :=
  if s.vp.zoomLevel ≤ env.minZoom then handleSwipeStart s p
  else handleMoveStart env s p

/-- multiPointerStart: force the previous gesture to its end handler (with a
null event), then dispatch on the number of active pointers. -/
def multiPointerStart (env : Env) (s : EngineState) : EngineState :=
  let s1 := (handleEnd env false s).1
  match s1.pointerList with
  | [p] => decideMoveOrSwipe env s1 p
  | [_, _] => handlePinchStart env s1 s1.pointerList
  | _ => s1

/-- multiPointerEnd: run the end handler if a gesture is active, then either
revert the events source to ANY (no pointers left) or re-enter a gesture for
the remaining pointers. -/
def multiPointerEnd (env : Env) (s : EngineState) :
    EngineState × Option Dir :=
  let r :=
    if s.currentAction ≠ Action.NONE then handleEnd env true s else (s, none)
  let s1 := r.1
  match s1.pointerList with
  | [] => ({ s1 with eventsSource := Source.ANY }, r.2)
  | [p] => (decideMoveOrSwipe env s1 p, r.2)
  | [_, _] => (handlePinchStart env s1 s1.pointerList, r.2)
  | _ => (s1, r.2)

/-- Result record of getFitSizes. -/
structure FitSize where
  width : ℚ
  height : ℚ
deriving DecidableEq, Repr

/-- getFitSizes, translated from the source; box and imagePadding are passed
explicitly. -/
def getFitSizes (box : Rect) (padding : ℚ) (width height : ℚ)
    (stretch : Bool) : FitSize :=
  let maxHeight0 := box.height - padding * 2
  let maxWidth0 := box.width - padding * 2
  let maxHeight := if stretch then maxHeight0 else minQ maxHeight0 height
  let maxWidth := if stretch then maxWidth0 else minQ maxWidth0 width
  if width / height < maxWidth / maxHeight then
    ⟨width * maxHeight / height, maxHeight⟩
  else
    ⟨maxWidth, height * maxWidth / width⟩

/-- The MIN_ZOOM invariant of the viewport: at minimum zoom the offset is
exactly (0, 0). -/
def zoomInv (env : Env) (vp : ViewportState) : Prop :=
  vp.zoomLevel = env.minZoom → vp.offsetX = 0 ∧ vp.offsetY = 0

instance (env : Env) (vp : ViewportState) : Decidable (zoomInv env vp) := by
  unfold zoomInv
  infer_instance

/-- A cache entry of this.imageCache: natural size plus the loaded flag. -/
structure CacheEntry where
  loaded : Bool
  width : ℚ
  height : ℚ
deriving DecidableEq, Repr

/-- The state the image loading subsystem touches: the URL-keyed image cache
(an instance field, a plain object keyed by URL), the role-keyed
loadErrorStatus (React state, an object keyed by srcType), the didUnmount
flag, and whether a render invalidation has been signalled. -/
structure LoadState where
  imageCache : String → Option CacheEntry
  loadErrorStatus : String → Bool
  didUnmount : Bool
  invalidated : Bool

/-- The onload completion path of loadImage followed by the done callback
built by generateLoadDoneCallback in loadAllImages: the cache entry is stored
keyed by the loaded URL, then the component rerenders (forceUpdate) only if
the role's URL in the live props still equals the requested URL and the
component has not unmounted.  props gives the live URL per role at the time
the completion arrives; srcType and imageSrc are the captures of the load. -/
def imageOnLoadSuccess (props : String → Option String)
    (srcType imageSrc : String) (w h : ℚ) (st : LoadState) : LoadState :=
  let st1 :=
    { st with
      imageCache := fun k =>
        if k = imageSrc then some ⟨true, w, h⟩ else st.imageCache k }
  if props srcType ≠ some imageSrc ∨ st1.didUnmount = true then st1
  else { st1 with invalidated := true }

/-- The onerror completion path of loadImage: the role's error flag is set
(a setState, which rerenders) and the done callback returns early on the
error argument, regardless of whether the load is stale. -/
def imageOnLoadFailure (srcType : String) (st : LoadState) : LoadState :=
  { st with
    loadErrorStatus := fun k =>
      if k = srcType then true else st.loadErrorStatus k
    invalidated := true }

/-- The six srcType role names of getSrcTypes. -/
def srcTypeNames : List String :=
  ["mainSrc", "mainSrcThumbnail", "nextSrc", "nextSrcThumbnail",
    "prevSrc", "prevSrcThumbnail"]

/-- The per-role error-flag reset of loadAllImages, iterated over the role
list: a role whose URL is present and whose error flag is set has the flag
reset to false before the (re)load is issued. -/
def clearFlags (props : String → Option String) :
    List String → (String → Bool) → String → Bool
  | [], f => f
  | t :: rest, f =>
    clearFlags props rest
      (if (props t).isSome = true ∧ f t = true then
        fun k => if k = t then false else f k
      else f)

/-- The error-flag clearing pass of loadAllImages over all six roles. -/
def loadAllImagesClear (props : String → Option String) (st : LoadState) :
    LoadState :=
  { st with loadErrorStatus := clearFlags props srcTypeNames st.loadErrorStatus }

/-- State of the timeout machinery: this.timeouts (tracked), the platform's
outstanding native timers, and didUnmount. -/
structure TimerState where
  tracked : List ℕ
  native : List ℕ
  unmounted : Bool
deriving DecidableEq, Repr

/-- Transitions of the timeout machinery, translated from the source:
creation through the setTimeout wrapper pushes the id onto this.timeouts;
the wrapped callback first removes its own id and then runs (fire); the
clearTimeout wrapper removes the id and cancels the native timer; unmount
sets didUnmount and cancels every native timer whose id is tracked. -/
inductive TimerStep : TimerState → TimerState → Prop
  | create (id : ℕ) (s : TimerState) (h : s.unmounted = false)
      (hfresh : id ∉ s.native) :
      TimerStep s ⟨s.tracked ++ [id], s.native ++ [id], false⟩
  | clear (id : ℕ) (s : TimerState) (h : s.unmounted = false) :
      TimerStep s
        ⟨s.tracked.filter (fun t => t ≠ id),
          s.native.filter (fun t => t ≠ id), false⟩
  | fire (id : ℕ) (s : TimerState) (h : id ∈ s.native) :
      TimerStep s
        ⟨s.tracked.filter (fun t => t ≠ id),
          s.native.filter (fun t => t ≠ id), s.unmounted⟩
  | unmount (s : TimerState) (h : s.unmounted = false) :
      TimerStep s
        ⟨s.tracked, s.native.filter (fun t => t ∉ s.tracked), true⟩

/-- States of the timeout machinery reachable from the freshly constructed
component (no timers, not unmounted). -/
inductive TimerReachable : TimerState → Prop
  | init : TimerReachable ⟨[], [], false⟩
  | step {s s' : TimerState} (hr : TimerReachable s) (hs : TimerStep s s') :
      TimerReachable s'

/-- A concrete current-image info used in witnesses and counterexamples. -/
def img1 : ImgInfo := ⟨100, 100⟩

/-- A concrete multiplier table: geometric doubling sampled at the integer
zoom levels used by the concrete scenarios. -/
def multStep : ℚ → ℚ := fun q =>
  if q < 1 then 1 else if q < 2 then 2 else if q < 3 then 4 else 8

/-- A concrete environment for witnesses and counterexamples: zoom enabled,
levels 0..3, a 100×100 viewport at the origin, a loaded 100×100 image. -/
def env1 : Env where
  enableZoom := true
  minZoom := 0
  maxZoom := 3
  mult := multStep
  sqrtFn := fun q => q
  box := ⟨100, 100, 0, 0⟩
  image := some img1
  animationDisabled := false
  animationOnKeyInput := false
  animationDuration := 300
  minSwipeDistance := 200
  prevSrc := true
  nextSrc := true

/-- The engine state right after mount: minimum zoom, no offset, no gesture,
no owning source, no pointers. -/
def engine0 : EngineState where
  vp := ⟨0, 0, 0⟩
  shouldAnimate := false
  isClosing := false
  currentAction := Action.NONE
  eventsSource := Source.ANY
  pointerList := []
  moveStartX := 0
  moveStartY := 0
  moveStartOffsetX := 0
  moveStartOffsetY := 0
  swipeStartX := 0
  swipeStartY := 0
  swipeEndX := 0
  swipeEndY := 0
  pinchTouchList := []
  pinchDistance := 0
  keyPressed := false
  moveRequested := false
  keyCounter := 0
  scheduled := []

/-- An engine state mid-pan at zoom level 1 with an in-range offset, used by
the pan-end witness. -/
def sInRange : EngineState :=
  { engine0 with vp := ⟨1, 10, -20⟩, currentAction := Action.MOVE }

/-- A concrete touch sample. -/
def p1 : ParsedEvent := ⟨PId.num 1, Source.TOUCH, 0, 0⟩

/-- A second concrete touch sample. -/
def p2 : ParsedEvent := ⟨PId.num 2, Source.TOUCH, 1, 0⟩

/-- An idle engine state with two active pointers, used by the gesture-entry
witness. -/
def sTwoPtr : EngineState :=
  { engine0 with pointerList := [p1, p2] }

/-- An engine state mid-pinch at zoom level 1, snapshot [p1, p2], stored
distance 1, used by the pinch witness. -/
def sPinch : EngineState :=
  { engine0 with
    vp := ⟨1, 0, 0⟩
    currentAction := Action.PINCH
    pinchTouchList := [p1, p2]
    pinchDistance := 1 }

/-- An incoming move sample list that moves p2 outward (squared distance
grows from 1 to 4; env1 models sqrt as the identity). -/
def incoming1 : List ParsedEvent := [⟨PId.num 2, Source.TOUCH, 2, 0⟩]

/-- Step 1 of the minimum-zoom invariant counterexample trace: from the
initial state, a zoom-in to level 1 (anchored at the default center, so the
offset stays (0, 0)). -/
def c2s1 : EngineState := changeZoomE env1 engine0 1 none none

/-- Step 2: a pan starts (mouse down at x = 10). -/
def c2s2 : EngineState :=
  handleMoveStart env1 c2s1 ⟨PId.mouse, Source.MOUSE, 10, 0⟩

/-- Step 3: mid-pan, a wheel zoom-out back to the minimum level (changeZoom
resets the offset to (0, 0)); the pan bookkeeping is untouched. -/
def c2s3 : EngineState := changeZoomE env1 c2s2 0 none none

/-- Step 4: the next pan move event applies the drag delta at minimum zoom. -/
def c2s4 : EngineState := handleMove c2s3 ⟨PId.mouse, Source.MOUSE, 0, 0⟩

/-- Live props before navigation: role mainSrc shows URL A. -/
def propsA : String → Option String :=
  fun r => if r = "mainSrc" then some "A" else none

/-- Live props after navigation: role mainSrc shows URL B. -/
def propsB : String → Option String :=
  fun r => if r = "mainSrc" then some "B" else none

/-- Load subsystem start state: empty cache, no error flags. -/
def load0 : LoadState := ⟨fun _ => none, fun _ => false, false, false⟩

/-- A's load (issued under propsA) fails after the props switched to B: the
stale failure still sets the role's error flag. -/
def load1 : LoadState := imageOnLoadFailure "mainSrc" load0

/-- B's load then succeeds with the live props showing B. -/
def load2 : LoadState := imageOnLoadSuccess propsB "mainSrc" "B" 100 100 load1

theorem minQ_eq_min (a b : ℚ) : minQ a b = min a b := by
  unfold minQ
  split
  · exact (min_eq_left (le_of_lt (by assumption))).symm
  · exact (min_eq_right (not_lt.mp (by assumption))).symm

theorem maxQ_eq_max (a b : ℚ) : maxQ a b = max a b := by
  unfold maxQ
  split
  · exact (max_eq_right (le_of_lt (by assumption))).symm
  · exact (max_eq_left (not_lt.mp (by assumption))).symm

theorem clampQ_eq (lo hi x : ℚ) : clampQ lo hi x = max lo (min hi x) := by
  unfold clampQ
  rw [minQ_eq_min, maxQ_eq_max]

theorem clampQ_of_mem (lo hi x : ℚ) (hlo : lo ≤ x) (hhi : x ≤ hi) :
    clampQ lo hi x = x := by
  rw [clampQ_eq, min_eq_right hhi, max_eq_right hlo]

theorem fitCore (mw mh w h : ℚ) (hw : w ≠ 0) (hh : h ≠ 0) :
    (if w / h < mw / mh then (⟨w * mh / h, mh⟩ : FitSize)
      else ⟨mw, h * mw / w⟩).width * h =
    (if w / h < mw / mh then (⟨w * mh / h, mh⟩ : FitSize)
      else ⟨mw, h * mw / w⟩).height * w := by
  by_cases hr : w / h < mw / mh
  · simp only [if_pos hr]
    show w * mh / h * h = mh * w
    rw [div_mul_cancel₀ _ hh]
    ring
  · simp only [if_neg hr]
    show mw * h = h * mw / w * w
    rw [div_mul_cancel₀ _ hw]
    ring

/-- C10: for every positive input width and height, every viewport rectangle
and padding, and both the stretch and non-stretch cases, getFitSizes returns
a size with the same width-to-height ratio as the input (stated
cross-multiplied so that it is meaningful even when a degenerate box makes a
fitted dimension zero). -/
theorem getFitSizes_ratio (box : Rect) (padding w h : ℚ) (stretch : Bool)
    (hw : 0 < w) (hh : 0 < h) :
    (getFitSizes box padding w h stretch).width * h =
      (getFitSizes box padding w h stretch).height * w := by
  unfold getFitSizes
  exact fitCore _ _ w h hw.ne' hh.ne'

theorem getFitSizes_ratio_witness :
    (0 : ℚ) < 200 ∧ (0 : ℚ) < 100 ∧
      (getFitSizes ⟨100, 100, 0, 0⟩ 10 200 100 false).width * 100 =
        (getFitSizes ⟨100, 100, 0, 0⟩ 10 200 100 false).height * 200 :=
  ⟨by norm_num, by norm_num,
    getFitSizes_ratio ⟨100, 100, 0, 0⟩ 10 200 100 false (by norm_num)
      (by norm_num)⟩

/-- C3: ending a swipe commits a navigation exactly when an end event exists,
no open/close animation is in progress, the swipe is horizontally dominant
(|dx| at least 1.5 times |dy|), the distance clears MIN_SWIPE_DISTANCE or a
quarter of the viewport width, and the matching neighbour source exists;
dx > 0 with a previous source commits previous, dx < 0 with a next source
commits next, and in every other case no navigation is requested. -/
theorem swipe_commit_iff (env : Env) (ev : Bool) (s : EngineState) :
    ((handleSwipeEnd env ev s).2 = some Dir.prev ↔
      ev = true ∧ isAnimating s = false ∧
        |s.swipeEndY - s.swipeStartY| * (3 / 2) ≤
          |s.swipeEndX - s.swipeStartX| ∧
        (env.minSwipeDistance ≤ |s.swipeEndX - s.swipeStartX| ∨
          env.box.width / 4 ≤ |s.swipeEndX - s.swipeStartX|) ∧
        0 < s.swipeEndX - s.swipeStartX ∧ env.prevSrc = true) ∧
    ((handleSwipeEnd env ev s).2 = some Dir.next ↔
      ev = true ∧ isAnimating s = false ∧
        |s.swipeEndY - s.swipeStartY| * (3 / 2) ≤
          |s.swipeEndX - s.swipeStartX| ∧
        (env.minSwipeDistance ≤ |s.swipeEndX - s.swipeStartX| ∨
          env.box.width / 4 ≤ |s.swipeEndX - s.swipeStartX|) ∧
        s.swipeEndX - s.swipeStartX < 0 ∧ env.nextSrc = true) := by
  simp only [handleSwipeEnd]
  split_ifs with h1 h2 h3 h4
  · refine ⟨iff_of_false (by simp) ?_, iff_of_false (by simp) ?_⟩
    all_goals
      rintro ⟨hev, hanim, hhoriz, -, -, -⟩
      rcases h1 with h | h | h
      · rw [hev] at h
        exact Bool.noConfusion h
      · rw [hanim] at h
        exact Bool.noConfusion h
      · exact absurd hhoriz (not_le.mpr h)
  · refine ⟨iff_of_false (by simp) ?_, iff_of_false (by simp) ?_⟩
    all_goals
      rintro ⟨-, -, -, hthresh, -, -⟩
      rcases hthresh with h | h
      · exact absurd h (not_le.mpr h2.1)
      · exact absurd h (not_le.mpr h2.2)
  · push_neg at h1
    refine ⟨iff_of_true rfl ⟨?_, ?_, h1.2.2, ?_, h3.1, h3.2⟩,
      iff_of_false (by simp) ?_⟩
    · cases hev : ev
      · exact absurd hev h1.1
      · rfl
    · cases hanim : isAnimating s
      · rfl
      · exact absurd hanim h1.2.1
    · rcases not_and_or.mp h2 with h | h
      · exact Or.inl (not_lt.mp h)
      · exact Or.inr (not_lt.mp h)
    · rintro ⟨-, -, -, -, hneg, -⟩
      exact absurd h3.1 (not_lt.mpr hneg.le)
  · push_neg at h1
    refine ⟨iff_of_false (by simp) ?_,
      iff_of_true rfl ⟨?_, ?_, h1.2.2, ?_, h4.1, h4.2⟩⟩
    · rintro ⟨-, -, -, -, hpos, hsrc⟩
      rcases not_and_or.mp h3 with h | h
      · exact absurd hpos h
      · exact absurd hsrc h
    · cases hev : ev
      · exact absurd hev h1.1
      · rfl
    · cases hanim : isAnimating s
      · rfl
      · exact absurd hanim h1.2.1
    · rcases not_and_or.mp h2 with h | h
      · exact Or.inl (not_lt.mp h)
      · exact Or.inr (not_lt.mp h)
  · refine ⟨iff_of_false (by simp) ?_, iff_of_false (by simp) ?_⟩
    · rintro ⟨-, -, -, -, hpos, hsrc⟩
      rcases not_and_or.mp h3 with h | h
      · exact absurd hpos h
      · exact absurd hsrc h
    · rintro ⟨-, -, -, -, hneg, hsrc⟩
      rcases not_and_or.mp h4 with h | h
      · exact absurd hneg h
      · exact absurd hsrc h

theorem handleMoveEnd_vp (env : Env) (s : EngineState) :
    (handleMoveEnd env s).vp =
      ⟨s.vp.zoomLevel,
        clampQ (getMaxOffsets env s.vp.zoomLevel).minX
          (getMaxOffsets env s.vp.zoomLevel).maxX s.vp.offsetX,
        clampQ (getMaxOffsets env s.vp.zoomLevel).minY
          (getMaxOffsets env s.vp.zoomLevel).maxY s.vp.offsetY⟩ := by
  simp only [handleMoveEnd]
  by_cases hc :
      clampQ (getMaxOffsets env s.vp.zoomLevel).minX
          (getMaxOffsets env s.vp.zoomLevel).maxX s.vp.offsetX ≠ s.vp.offsetX ∨
        clampQ (getMaxOffsets env s.vp.zoomLevel).minY
          (getMaxOffsets env s.vp.zoomLevel).maxY s.vp.offsetY ≠ s.vp.offsetY
  · rw [if_pos hc]
  · rw [if_neg hc]
    push_neg at hc
    rw [hc.1, hc.2]

theorem handleMoveEnd_unchanged (env : Env) (s : EngineState)
    (hx : clampQ (getMaxOffsets env s.vp.zoomLevel).minX
      (getMaxOffsets env s.vp.zoomLevel).maxX s.vp.offsetX = s.vp.offsetX)
    (hy : clampQ (getMaxOffsets env s.vp.zoomLevel).minY
      (getMaxOffsets env s.vp.zoomLevel).maxY s.vp.offsetY = s.vp.offsetY) :
    handleMoveEnd env s =
      { s with
        currentAction := Action.NONE
        moveStartX := 0
        moveStartY := 0
        moveStartOffsetX := 0
        moveStartOffsetY := 0 } := by
  simp only [handleMoveEnd]
  rw [if_neg]
  push_neg
  exact ⟨hx, hy⟩

theorem handleMoveEnd_changed (env : Env) (s : EngineState)
    (hc : clampQ (getMaxOffsets env s.vp.zoomLevel).minX
        (getMaxOffsets env s.vp.zoomLevel).maxX s.vp.offsetX ≠ s.vp.offsetX ∨
      clampQ (getMaxOffsets env s.vp.zoomLevel).minY
        (getMaxOffsets env s.vp.zoomLevel).maxY s.vp.offsetY ≠ s.vp.offsetY) :
    (handleMoveEnd env s).shouldAnimate = true ∧
      (handleMoveEnd env s).scheduled =
        s.scheduled ++ [env.animationDuration] := by
  simp only [handleMoveEnd]
  rw [if_pos hc]
  exact ⟨rfl, rfl⟩

theorem getMaxOffsets_maxX_nonneg (env : Env) (z : ℚ) :
    0 ≤ (getMaxOffsets env z).maxX := by
  rcases himg : env.image with _ | img
  · simp [getMaxOffsets, himg]
  · simp only [getMaxOffsets, himg]
    split_ifs with h <;> linarith

theorem getMaxOffsets_maxY_nonneg (env : Env) (z : ℚ) :
    0 ≤ (getMaxOffsets env z).maxY := by
  rcases himg : env.image with _ | img
  · simp [getMaxOffsets, himg]
  · simp only [getMaxOffsets, himg]
    split_ifs with h <;> linarith

theorem getMaxOffsets_minX_eq (env : Env) (z : ℚ) :
    (getMaxOffsets env z).minX = -(getMaxOffsets env z).maxX := by
  rcases himg : env.image with _ | img
  · simp [getMaxOffsets, himg]
  · simp only [getMaxOffsets, himg]
    ring

theorem getMaxOffsets_minY_eq (env : Env) (z : ℚ) :
    (getMaxOffsets env z).minY = -(getMaxOffsets env z).maxY := by
  rcases himg : env.image with _ | img
  · simp [getMaxOffsets, himg]
  · simp only [getMaxOffsets, himg]
    ring

/-- C5: ending a pan clamps the offset componentwise into the range given by
getMaxOffsets (per axis ±(multiplier·imageSize − viewportSize)/2 when the
scaled image exceeds the viewport, ±(viewportSize − multiplier·imageSize)/2
when it is smaller, and (0, 0) when no image size is known); an offset
already inside the range is left unchanged with nothing scheduled, and when
clamping changed the offset an animated correction is triggered for the
configured animation duration. -/
theorem moveEnd_clamp (env : Env) (s : EngineState) :
    (handleMoveEnd env s).vp.offsetX =
      clampQ (getMaxOffsets env s.vp.zoomLevel).minX
        (getMaxOffsets env s.vp.zoomLevel).maxX s.vp.offsetX ∧
    (handleMoveEnd env s).vp.offsetY =
      clampQ (getMaxOffsets env s.vp.zoomLevel).minY
        (getMaxOffsets env s.vp.zoomLevel).maxY s.vp.offsetY ∧
    (handleMoveEnd env s).vp.zoomLevel = s.vp.zoomLevel ∧
    (∀ img, env.image = some img →
      (env.mult s.vp.zoomLevel * img.width - env.box.width < 0 →
        (getMaxOffsets env s.vp.zoomLevel).maxX =
          (env.box.width - env.mult s.vp.zoomLevel * img.width) / 2) ∧
      (0 ≤ env.mult s.vp.zoomLevel * img.width - env.box.width →
        (getMaxOffsets env s.vp.zoomLevel).maxX =
          (env.mult s.vp.zoomLevel * img.width - env.box.width) / 2) ∧
      (env.mult s.vp.zoomLevel * img.height - env.box.height < 0 →
        (getMaxOffsets env s.vp.zoomLevel).maxY =
          (env.box.height - env.mult s.vp.zoomLevel * img.height) / 2) ∧
      (0 ≤ env.mult s.vp.zoomLevel * img.height - env.box.height →
        (getMaxOffsets env s.vp.zoomLevel).maxY =
          (env.mult s.vp.zoomLevel * img.height - env.box.height) / 2) ∧
      (getMaxOffsets env s.vp.zoomLevel).minX =
        -(getMaxOffsets env s.vp.zoomLevel).maxX ∧
      (getMaxOffsets env s.vp.zoomLevel).minY =
        -(getMaxOffsets env s.vp.zoomLevel).maxY) ∧
    (env.image = none → getMaxOffsets env s.vp.zoomLevel = ⟨0, 0, 0, 0⟩) ∧
    ((getMaxOffsets env s.vp.zoomLevel).minX ≤ s.vp.offsetX →
      s.vp.offsetX ≤ (getMaxOffsets env s.vp.zoomLevel).maxX →
      (getMaxOffsets env s.vp.zoomLevel).minY ≤ s.vp.offsetY →
      s.vp.offsetY ≤ (getMaxOffsets env s.vp.zoomLevel).maxY →
      (handleMoveEnd env s).vp = s.vp ∧
        (handleMoveEnd env s).scheduled = s.scheduled ∧
        (handleMoveEnd env s).shouldAnimate = s.shouldAnimate) ∧
    ((handleMoveEnd env s).vp.offsetX ≠ s.vp.offsetX ∨
        (handleMoveEnd env s).vp.offsetY ≠ s.vp.offsetY →
      (handleMoveEnd env s).shouldAnimate = true ∧
        (handleMoveEnd env s).scheduled =
          s.scheduled ++ [env.animationDuration]) := by
  refine ⟨?_, ?_, ?_, ?_, ?_, ?_, ?_⟩
  · rw [handleMoveEnd_vp]
  · rw [handleMoveEnd_vp]
  · rw [handleMoveEnd_vp]
  · intro img himg
    simp only [getMaxOffsets, himg]
    refine ⟨fun hx => ?_, fun hx => ?_, fun hy => ?_, fun hy => ?_, ?_, ?_⟩
    · rw [if_pos hx]
    · rw [if_neg (not_lt.mpr hx)]
    · rw [if_pos hy]
    · rw [if_neg (not_lt.mpr hy)]
    · ring
    · ring
  · intro himg
    simp [getMaxOffsets, himg]
  · intro h1 h2 h3 h4
    have hx := clampQ_of_mem _ _ _ h1 h2
    have hy := clampQ_of_mem _ _ _ h3 h4
    rw [handleMoveEnd_unchanged env s hx hy]
    exact ⟨rfl, rfl, rfl⟩
  · intro hch
    refine handleMoveEnd_changed env s ?_
    rw [handleMoveEnd_vp] at hch
    exact hch

theorem moveEnd_clamp_witness :
    (handleMoveEnd env1 sInRange).vp = sInRange.vp ∧
      (handleMoveEnd env1 sInRange).scheduled = sInRange.scheduled ∧
      (handleMoveEnd env1 sInRange).shouldAnimate = sInRange.shouldAnimate :=
  (moveEnd_clamp env1 sInRange).2.2.2.2.2.1
    (by norm_num [getMaxOffsets, env1, img1, multStep, sInRange, engine0])
    (by norm_num [getMaxOffsets, env1, img1, multStep, sInRange, engine0])
    (by norm_num [getMaxOffsets, env1, img1, multStep, sInRange, engine0])
    (by norm_num [getMaxOffsets, env1, img1, multStep, sInRange, engine0])

theorem requestMove_pointerList (env : Env) (dir : Dir) (s : EngineState) :
    (requestMove env dir s).pointerList = s.pointerList := rfl

theorem handleSwipeEnd_pointerList (env : Env) (ev : Bool) (s : EngineState) :
    (handleSwipeEnd env ev s).1.pointerList = s.pointerList := by
  simp only [handleSwipeEnd]
  split_ifs <;> rfl

theorem handleMoveEnd_pointerList (env : Env) (s : EngineState) :
    (handleMoveEnd env s).pointerList = s.pointerList := by
  simp only [handleMoveEnd]
  split_ifs <;> rfl

theorem handleEnd_pointerList (env : Env) (ev : Bool) (s : EngineState) :
    (handleEnd env ev s).1.pointerList = s.pointerList := by
  unfold handleEnd
  cases s.currentAction
  · rfl
  · exact handleMoveEnd_pointerList env s
  · exact handleSwipeEnd_pointerList env ev s
  · rfl

theorem handleEnd_none (env : Env) (ev : Bool) (s : EngineState)
    (h : s.currentAction = Action.NONE) : handleEnd env ev s = (s, none) := by
  unfold handleEnd
  rw [h]

/-- C4: the source-arbitration function accepts a sample matching the active
source, or any sample when the source is unclaimed (claiming it); it rejects
a mouse sample whenever a different source is active; it accepts a touch
sample unconditionally, switching the active source to touch and leaving
only touch-origin samples in the registry (given the reachable-state facts
that an unclaimed source has an empty registry and a touch-owned registry is
all touch); it accepts a pointer sample exactly when the active source is
mouse, unclaimed, or already pointer, purging the registry on a
mouse-to-pointer switch; and when the pointer count returns to zero at a
gesture end, the active source reverts to unclaimed. -/
theorem source_arbitration :
    (∀ src es pl, es = src →
      shouldHandleEvent src es pl = (true, es, pl)) ∧
    (∀ src pl, src ≠ Source.ANY →
      shouldHandleEvent src Source.ANY pl = (true, src, pl)) ∧
    (∀ es pl, es ≠ Source.MOUSE → es ≠ Source.ANY →
      (shouldHandleEvent Source.MOUSE es pl).1 = false) ∧
    (∀ es pl,
      (shouldHandleEvent Source.TOUCH es pl).1 = true ∧
      (shouldHandleEvent Source.TOUCH es pl).2.1 = Source.TOUCH ∧
      ((es = Source.ANY → pl = []) →
        (es = Source.TOUCH → ∀ p ∈ pl, p.source = Source.TOUCH) →
        ∀ p ∈ (shouldHandleEvent Source.TOUCH es pl).2.2,
          p.source = Source.TOUCH)) ∧
    (∀ es pl,
      ((shouldHandleEvent Source.POINTER es pl).1 = true ↔
        es = Source.MOUSE ∨ es = Source.ANY ∨ es = Source.POINTER) ∧
      (es = Source.MOUSE →
        ∀ p ∈ (shouldHandleEvent Source.POINTER es pl).2.2,
          p.source = Source.POINTER)) ∧
    (∀ env s, s.pointerList = [] →
      (multiPointerEnd env s).1.eventsSource = Source.ANY) := by
  refine ⟨?_, ?_, ?_, ?_, ?_, ?_⟩
  · intro src es pl h
    unfold shouldHandleEvent
    rw [if_pos h]
  · intro src pl h
    unfold shouldHandleEvent
    rw [if_neg (fun hh => h hh.symm), if_pos rfl]
  · intro es pl h1 h2
    unfold shouldHandleEvent
    rw [if_neg (fun hh => h1 hh), if_neg h2]
  · intro es pl
    unfold shouldHandleEvent
    by_cases h1 : es = Source.TOUCH
    · rw [if_pos h1]
      refine ⟨rfl, h1, fun hany htouch p hp => htouch h1 p hp⟩
    · rw [if_neg h1]
      by_cases h2 : es = Source.ANY
      · rw [if_pos h2]
        refine ⟨rfl, rfl, fun hany htouch p hp => ?_⟩
        rw [hany h2] at hp
        exact absurd hp (List.not_mem_nil p)
      · rw [if_neg h2]
        refine ⟨rfl, rfl, fun hany htouch p hp => ?_⟩
        have := List.mem_filter.mp hp
        exact of_decide_eq_true this.2
  · intro es pl
    unfold shouldHandleEvent
    by_cases h1 : es = Source.POINTER
    · rw [if_pos h1]
      exact ⟨iff_of_true rfl (Or.inr (Or.inr h1)),
        fun hm => absurd (h1 ▸ hm : Source.POINTER = Source.MOUSE)
          (by simp)⟩
    · rw [if_neg h1]
      by_cases h2 : es = Source.ANY
      · rw [if_pos h2]
        exact ⟨iff_of_true rfl (Or.inr (Or.inl h2)),
          fun hm => absurd (h2 ▸ hm : Source.ANY = Source.MOUSE) (by simp)⟩
      · rw [if_neg h2]
        by_cases h3 : es = Source.MOUSE
        · rw [if_pos h3]
          refine ⟨iff_of_true rfl (Or.inl h3), fun _ p hp => ?_⟩
          have := List.mem_filter.mp hp
          exact of_decide_eq_true this.2
        · rw [if_neg h3]
          exact ⟨iff_of_false (by simp) (by simp [h1, h2, h3]),
            fun hm => absurd hm h3⟩
  · intro env s h
    have hpl : (handleEnd env true s).1.pointerList = [] :=
      (handleEnd_pointerList env true s).trans h
    by_cases hA : s.currentAction ≠ Action.NONE
    · simp only [multiPointerEnd, if_pos hA, hpl]
    · simp only [multiPointerEnd, if_neg hA, h]

/-- C4 witness at a concrete input: a mouse sample is rejected while touch
owns the interaction. -/
theorem source_arbitration_witness :
    (shouldHandleEvent Source.MOUSE Source.TOUCH []).1 = false :=
  source_arbitration.2.2.1 Source.TOUCH [] (by decide) (by decide)

/-- C7: at a gesture start boundary (gesture already ended, currentAction
NONE) with zoom enabled and the zoom level within bounds: one active pointer
enters Swipe at minimum zoom and Move (pan) otherwise; two active pointers
enter Pinch, capturing both samples and their inter-point distance; more
than two active pointers start no gesture and leave the state untouched. -/
theorem gesture_entry (env : Env) (s : EngineState)
    (hact : s.currentAction = Action.NONE) (hE : env.enableZoom = true)
    (hmin : env.minZoom ≤ s.vp.zoomLevel) :
    (∀ p, s.pointerList = [p] →
      (multiPointerStart env s).currentAction =
        (if s.vp.zoomLevel = env.minZoom then Action.SWIPE
          else Action.MOVE)) ∧
    (∀ a b, s.pointerList = [a, b] →
      (multiPointerStart env s).currentAction = Action.PINCH ∧
      (multiPointerStart env s).pinchTouchList = [a, b] ∧
      (multiPointerStart env s).pinchDistance =
        calcPinchDistance env [a, b]) ∧
    (2 < s.pointerList.length → multiPointerStart env s = s) := by
  have hend : (handleEnd env false s).1 = s := by
    rw [handleEnd_none env false s hact]
  refine ⟨?_, ?_, ?_⟩
  · intro p hp
    simp only [multiPointerStart, hend, hp]
    unfold decideMoveOrSwipe
    by_cases hz : s.vp.zoomLevel = env.minZoom
    · rw [if_pos hz, if_pos (le_of_eq hz)]
      rfl
    · rw [if_neg hz, if_neg (not_le.mpr (lt_of_le_of_ne hmin
        (fun hh => hz hh.symm)))]
      unfold handleMoveStart
      rw [if_neg (by rw [hE]; exact fun hh => Bool.noConfusion hh)]
  · intro a b hp
    simp only [multiPointerStart, hend, hp]
    unfold handlePinchStart
    rw [if_neg (by rw [hE]; exact fun hh => Bool.noConfusion hh)]
    exact ⟨rfl, rfl, rfl⟩
  · intro hlen
    rcases hpl : s.pointerList with _ | ⟨a, _ | ⟨b, _ | ⟨c, t⟩⟩⟩ <;>
      rw [hpl] at hlen
    · exact absurd hlen (by norm_num)
    · exact absurd hlen (by norm_num)
    · exact absurd hlen (by norm_num)
    · simp only [multiPointerStart, hend, hpl]

theorem gesture_entry_witness :
    (multiPointerStart env1 sTwoPtr).currentAction = Action.PINCH ∧
      (multiPointerStart env1 sTwoPtr).pinchTouchList = [p1, p2] ∧
      (multiPointerStart env1 sTwoPtr).pinchDistance =
        calcPinchDistance env1 [p1, p2] :=
  (gesture_entry env1 sTwoPtr rfl rfl
      (by norm_num [env1, sTwoPtr, engine0])).2.1 p1 p2 rfl

/-- C9: in every reachable state of the timeout machinery, every outstanding
native timer is recorded in the tracked timeout collection, and once the
component has unmounted no native timer remains, so no timer callback can
fire and mutate state after teardown. -/
theorem timers_cancelled_on_unmount :
    ∀ s : TimerState, TimerReachable s →
      (∀ id, id ∈ s.native → id ∈ s.tracked) ∧
        (s.unmounted = true → s.native = []) := by
  intro s hr
  induction hr with
  | init => exact ⟨fun id h => absurd h (List.not_mem_nil id), fun _ => rfl⟩
  | step hr hs ih =>
    obtain ⟨ihsub, ihun⟩ := ih
    cases hs with
    | create id s h hfresh =>
      refine ⟨fun i hi => ?_, fun hu => absurd hu (by simp)⟩
      simp only [List.mem_append, List.mem_singleton] at hi ⊢
      rcases hi with hi | hi
      · exact Or.inl (ihsub i hi)
      · exact Or.inr hi
    | clear id s h =>
      refine ⟨fun i hi => ?_, fun hu => absurd hu (by simp)⟩
      have hm := List.mem_filter.mp hi
      exact List.mem_filter.mpr ⟨ihsub i hm.1, hm.2⟩
    | fire id s h =>
      refine ⟨fun i hi => ?_, fun hu => ?_⟩
      · have hm := List.mem_filter.mp hi
        exact List.mem_filter.mpr ⟨ihsub i hm.1, hm.2⟩
      · rw [ihun hu] at h
        exact absurd h (List.not_mem_nil id)
    | unmount s h =>
      refine ⟨fun i hi => ihsub i (List.mem_filter.mp hi).1, fun _ => ?_⟩
      · rw [List.filter_eq_nil_iff]
        intro a ha
        simp only [decide_not, Bool.not_eq_true', decide_eq_false_iff_not,
          not_not]
        exact ihsub a ha

theorem timers_cancelled_witness :
    (⟨[], [], true⟩ : TimerState).native = [] :=
  (timers_cancelled_on_unmount ⟨[], [], true⟩
    (TimerReachable.step TimerReachable.init
      (TimerStep.unmount ⟨[], [], false⟩ rfl))).2 rfl

theorem changeZoom_disabled (env : Env) (action : Action) (vp : ViewportState)
    (L : ℚ) (cx cy : Option ℚ) (hE : env.enableZoom = false) :
    changeZoom env action vp L cx cy = vp := by
  unfold changeZoom
  rw [if_pos hE]

theorem changeZoom_same (env : Env) (action : Action) (vp : ViewportState)
    (L : ℚ) (cx cy : Option ℚ) (hE : env.enableZoom = true)
    (h : clampQ env.minZoom env.maxZoom L = vp.zoomLevel) :
    changeZoom env action vp L cx cy = vp := by
  simp only [changeZoom, if_neg (hE ▸ fun hh => Bool.noConfusion hh :
    ¬env.enableZoom = false), if_pos h]

theorem changeZoom_min (env : Env) (action : Action) (vp : ViewportState)
    (L : ℚ) (cx cy : Option ℚ) (hE : env.enableZoom = true)
    (h1 : clampQ env.minZoom env.maxZoom L ≠ vp.zoomLevel)
    (h2 : clampQ env.minZoom env.maxZoom L = env.minZoom) :
    changeZoom env action vp L cx cy =
      ⟨clampQ env.minZoom env.maxZoom L, 0, 0⟩ := by
  simp only [changeZoom, if_neg (hE ▸ fun hh => Bool.noConfusion hh :
    ¬env.enableZoom = false), if_neg h1, if_pos h2]

theorem changeZoom_noimage (env : Env) (action : Action) (vp : ViewportState)
    (L : ℚ) (cx cy : Option ℚ) (hE : env.enableZoom = true)
    (h1 : clampQ env.minZoom env.maxZoom L ≠ vp.zoomLevel)
    (h2 : clampQ env.minZoom env.maxZoom L ≠ env.minZoom)
    (himg : env.image = none) :
    changeZoom env action vp L cx cy = vp := by
  simp only [changeZoom, if_neg (hE ▸ fun hh => Bool.noConfusion hh :
    ¬env.enableZoom = false), if_neg h1, if_neg h2, himg]

theorem changeZoom_main (env : Env) (action : Action) (vp : ViewportState)
    (L : ℚ) (cx cy : Option ℚ) (img : ImgInfo) (hE : env.enableZoom = true)
    (h1 : clampQ env.minZoom env.maxZoom L ≠ vp.zoomLevel)
    (h2 : clampQ env.minZoom env.maxZoom L ≠ env.minZoom)
    (himg : env.image = some img)
    (h3 : ¬(action ≠ Action.PINCH ∧
      clampQ env.minZoom env.maxZoom L < vp.zoomLevel)) :
    changeZoom env action vp L cx cy =
      ⟨clampQ env.minZoom env.maxZoom L,
        (env.box.width -
            img.width * env.mult (clampQ env.minZoom env.maxZoom L)) / 2 -
          (pointerXOf env cx -
            (pointerXOf env cx -
                ((env.box.width - img.width * env.mult vp.zoomLevel) / 2 -
                  vp.offsetX)) /
                env.mult vp.zoomLevel *
              env.mult (clampQ env.minZoom env.maxZoom L)),
        (env.box.height -
            img.height * env.mult (clampQ env.minZoom env.maxZoom L)) / 2 -
          (pointerYOf env cy -
            (pointerYOf env cy -
                ((env.box.height - img.height * env.mult vp.zoomLevel) / 2 -
                  vp.offsetY)) /
                env.mult vp.zoomLevel *
              env.mult (clampQ env.minZoom env.maxZoom L))⟩ := by
  simp only [changeZoom, if_neg (hE ▸ fun hh => Bool.noConfusion hh :
    ¬env.enableZoom = false), if_neg h1, if_neg h2, himg, if_neg h3]

theorem changeZoom_main_clamped (env : Env) (action : Action)
    (vp : ViewportState) (L : ℚ) (cx cy : Option ℚ) (img : ImgInfo)
    (hE : env.enableZoom = true)
    (h1 : clampQ env.minZoom env.maxZoom L ≠ vp.zoomLevel)
    (h2 : clampQ env.minZoom env.maxZoom L ≠ env.minZoom)
    (himg : env.image = some img)
    (h3 : action ≠ Action.PINCH ∧
      clampQ env.minZoom env.maxZoom L < vp.zoomLevel) :
    changeZoom env action vp L cx cy =
      ⟨clampQ env.minZoom env.maxZoom L,
        clampQ (getMaxOffsets env vp.zoomLevel).minX
          (getMaxOffsets env vp.zoomLevel).maxX
          ((env.box.width -
              img.width * env.mult (clampQ env.minZoom env.maxZoom L)) / 2 -
            (pointerXOf env cx -
              (pointerXOf env cx -
                  ((env.box.width - img.width * env.mult vp.zoomLevel) / 2 -
                    vp.offsetX)) /
                  env.mult vp.zoomLevel *
                env.mult (clampQ env.minZoom env.maxZoom L))),
        clampQ (getMaxOffsets env vp.zoomLevel).minY
          (getMaxOffsets env vp.zoomLevel).maxY
          ((env.box.height -
              img.height * env.mult (clampQ env.minZoom env.maxZoom L)) / 2 -
            (pointerYOf env cy -
              (pointerYOf env cy -
                  ((env.box.height - img.height * env.mult vp.zoomLevel) / 2 -
                    vp.offsetY)) /
                  env.mult vp.zoomLevel *
                env.mult (clampQ env.minZoom env.maxZoom L)))⟩ := by
  simp only [changeZoom, if_neg (hE ▸ fun hh => Bool.noConfusion hh :
    ¬env.enableZoom = false), if_neg h1, if_neg h2, himg, if_pos h3]

/-- C1 (amended): changeZoom preserves the image-space coordinate under the
anchor (defaulting to the viewport center), except that (a) when the clamped
target equals MIN_ZOOM and differs from the current level the offset is
reset exactly to (0, 0), and (b) when the action is not a pinch and the
level decreases, the anchor-preserving offset is additionally clamped into
the pan range, which can move the point under the anchor. -/
theorem changeZoom_anchor_amended (env : Env) (img : ImgInfo) (act : Action)
    (vp : ViewportState) (L : ℚ) (cx cy : Option ℚ)
    (hE : env.enableZoom = true) (himg : env.image = some img)
    (hmult : ∀ q : ℚ, 0 < env.mult q) :
    (clampQ env.minZoom env.maxZoom L = env.minZoom →
      clampQ env.minZoom env.maxZoom L ≠ vp.zoomLevel →
      changeZoom env act vp L cx cy = ⟨env.minZoom, 0, 0⟩) ∧
    (clampQ env.minZoom env.maxZoom L ≠ env.minZoom →
      (act = Action.PINCH ∨
        vp.zoomLevel ≤ clampQ env.minZoom env.maxZoom L) →
      anchorImageX env img (changeZoom env act vp L cx cy).zoomLevel
          (changeZoom env act vp L cx cy).offsetX (pointerXOf env cx) =
        anchorImageX env img vp.zoomLevel vp.offsetX (pointerXOf env cx) ∧
      anchorImageY env img (changeZoom env act vp L cx cy).zoomLevel
          (changeZoom env act vp L cx cy).offsetY (pointerYOf env cy) =
        anchorImageY env img vp.zoomLevel vp.offsetY (pointerYOf env cy)) := by
  constructor
  · intro h2 h1
    rw [changeZoom_min env act vp L cx cy hE h1 h2, h2]
  · intro h2 hcase
    by_cases h1 : clampQ env.minZoom env.maxZoom L = vp.zoomLevel
    · rw [changeZoom_same env act vp L cx cy hE h1]
      exact ⟨rfl, rfl⟩
    · have h3 : ¬(act ≠ Action.PINCH ∧
          clampQ env.minZoom env.maxZoom L < vp.zoomLevel) := by
        rcases hcase with hc | hc
        · exact fun hh => hh.1 hc
        · exact fun hh => absurd hh.2 (not_lt.mpr hc)
      rw [changeZoom_main env act vp L cx cy img hE h1 h2 himg h3]
      have hc := (hmult vp.zoomLevel).ne'
      have hn := (hmult (clampQ env.minZoom env.maxZoom L)).ne'
      constructor
      · unfold anchorImageX
        dsimp only
        field_simp
        ring
      · unfold anchorImageY
        dsimp only
        field_simp
        ring

/-- C1 counterexample: at a concrete non-pinch zoom-out with the offset far
out of range, the zoom-out clamp of changeZoom moves the offset away from
the anchor-preserving value, so the image coordinate under the anchor is
not preserved even though the clamped target is not MIN_ZOOM. -/
theorem changeZoom_anchor_cex :
    clampQ env1.minZoom env1.maxZoom 1 ≠ env1.minZoom ∧
    anchorImageX env1 img1
        (changeZoom env1 Action.NONE ⟨2, 1000, 0⟩ 1
          (some 50) (some 50)).zoomLevel
        (changeZoom env1 Action.NONE ⟨2, 1000, 0⟩ 1
          (some 50) (some 50)).offsetX
        (pointerXOf env1 (some 50)) ≠
      anchorImageX env1 img1 (2 : ℚ) 1000 (pointerXOf env1 (some 50)) := by
  have hcz : changeZoom env1 Action.NONE ⟨2, 1000, 0⟩ 1 (some 50) (some 50) =
      ⟨1, 150, 0⟩ := by
    norm_num [changeZoom, clampQ, minQ, maxQ, env1, img1, multStep,
      getMaxOffsets, pointerXOf, pointerYOf]
    decide
  constructor
  · norm_num [clampQ, minQ, maxQ, env1]
  · rw [hcz]
    norm_num [anchorImageX, env1, img1, multStep, pointerXOf]

theorem changeZoom_anchor_witness :
    clampQ env1.minZoom env1.maxZoom 2 ≠ env1.minZoom ∧
    anchorImageX env1 img1
        (changeZoom env1 Action.PINCH ⟨1, 7, 3⟩ 2
          (some 30) (some 40)).zoomLevel
        (changeZoom env1 Action.PINCH ⟨1, 7, 3⟩ 2
          (some 30) (some 40)).offsetX
        (pointerXOf env1 (some 30)) =
      anchorImageX env1 img1 (1 : ℚ) 7 (pointerXOf env1 (some 30)) := by
  have h2 : clampQ env1.minZoom env1.maxZoom 2 ≠ env1.minZoom := by
    norm_num [clampQ, minQ, maxQ, env1]
  refine ⟨h2, ?_⟩
  exact ((changeZoom_anchor_amended env1 img1 Action.PINCH ⟨1, 7, 3⟩ 2
      (some 30) (some 40) rfl rfl
      (by
        intro q
        show (0 : ℚ) < multStep q
        unfold multStep
        split_ifs <;> norm_num)).2 h2 (Or.inl rfl)).1

theorem changeZoom_zoomInv (env : Env) (act : Action) (vp : ViewportState)
    (L : ℚ) (cx cy : Option ℚ) (h : zoomInv env vp) :
    zoomInv env (changeZoom env act vp L cx cy) := by
  by_cases hE : env.enableZoom = false
  · rw [changeZoom_disabled env act vp L cx cy hE]
    exact h
  · have hE' : env.enableZoom = true := by
      cases henv : env.enableZoom
      · exact absurd henv hE
      · rfl
    by_cases h1 : clampQ env.minZoom env.maxZoom L = vp.zoomLevel
    · rw [changeZoom_same env act vp L cx cy hE' h1]
      exact h
    · by_cases h2 : clampQ env.minZoom env.maxZoom L = env.minZoom
      · rw [changeZoom_min env act vp L cx cy hE' h1 h2]
        intro _
        exact ⟨rfl, rfl⟩
      · rcases himg : env.image with _ | img
        · rw [changeZoom_noimage env act vp L cx cy hE' h1 h2 himg]
          exact h
        · by_cases h3 : act ≠ Action.PINCH ∧
              clampQ env.minZoom env.maxZoom L < vp.zoomLevel
          · rw [changeZoom_main_clamped env act vp L cx cy img hE' h1 h2
              himg h3]
            intro hz
            exact absurd hz h2
          · rw [changeZoom_main env act vp L cx cy img hE' h1 h2 himg h3]
            intro hz
            exact absurd hz h2

theorem handleMove_zoomLevel (s : EngineState) (p : ParsedEvent) :
    (handleMove s p).vp.zoomLevel = s.vp.zoomLevel := by
  simp only [handleMove]
  by_cases hc : s.vp.offsetX ≠ s.moveStartX - p.x + s.moveStartOffsetX ∨
      s.vp.offsetY ≠ s.moveStartY - p.y + s.moveStartOffsetY
  · rw [if_pos hc]
  · rw [if_neg hc]

theorem handleMove_zoomInv (env : Env) (s : EngineState) (p : ParsedEvent)
    (h : s.vp.zoomLevel ≠ env.minZoom) :
    zoomInv env (handleMove s p).vp := by
  intro hz
  rw [handleMove_zoomLevel] at hz
  exact absurd hz h

theorem handleMoveEnd_zoomInv (env : Env) (s : EngineState)
    (h : zoomInv env s.vp) : zoomInv env (handleMoveEnd env s).vp := by
  intro hz
  rw [handleMoveEnd_vp] at hz ⊢
  obtain ⟨hx, hy⟩ := h hz
  constructor
  · show clampQ (getMaxOffsets env s.vp.zoomLevel).minX
      (getMaxOffsets env s.vp.zoomLevel).maxX s.vp.offsetX = 0
    rw [hx, getMaxOffsets_minX_eq]
    exact clampQ_of_mem _ _ _
      (neg_nonpos.mpr (getMaxOffsets_maxX_nonneg env _))
      (getMaxOffsets_maxX_nonneg env _)
  · show clampQ (getMaxOffsets env s.vp.zoomLevel).minY
      (getMaxOffsets env s.vp.zoomLevel).maxY s.vp.offsetY = 0
    rw [hy, getMaxOffsets_minY_eq]
    exact clampQ_of_mem _ _ _
      (neg_nonpos.mpr (getMaxOffsets_maxY_nonneg env _))
      (getMaxOffsets_maxY_nonneg env _)

theorem handlePinch_vp (env : Env) (s : EngineState)
    (incoming : List ParsedEvent) :
    (handlePinch env s incoming).vp =
      changeZoom env s.currentAction s.vp
        (s.vp.zoomLevel + calcPinchDistance env (pinchMatched s incoming) -
          s.pinchDistance)
        (some (calcPinchCenter (pinchMatched s incoming)).1)
        (some (calcPinchCenter (pinchMatched s incoming)).2) := rfl

theorem handlePinch_zoomInv (env : Env) (s : EngineState)
    (incoming : List ParsedEvent) (h : zoomInv env s.vp) :
    zoomInv env (handlePinch env s incoming).vp := by
  rw [handlePinch_vp]
  exact changeZoom_zoomInv env _ _ _ _ _ h

theorem requestMove_zoomInv (env : Env) (dir : Dir) (s : EngineState) :
    zoomInv env (requestMove env dir s).vp := by
  intro _
  exact ⟨rfl, rfl⟩

/-- C2 (amended): changeZoom, pan end, pinch steps and navigation reset all
preserve the invariant that the offset is (0, 0) at minimum zoom; a pan move
step preserves it whenever the zoom level is not at minimum (which holds for
the whole pan unless an intervening zoom change dropped the level to
minimum mid-pan — in that reachable corner the step can violate the
invariant, see the counterexample). -/
theorem minZoom_invariant_amended :
    (∀ (env : Env) (act : Action) (vp : ViewportState) (L : ℚ)
        (cx cy : Option ℚ), zoomInv env vp →
      zoomInv env (changeZoom env act vp L cx cy)) ∧
    (∀ (env : Env) (s : EngineState) (p : ParsedEvent),
      s.vp.zoomLevel ≠ env.minZoom → zoomInv env (handleMove s p).vp) ∧
    (∀ (env : Env) (s : EngineState), zoomInv env s.vp →
      zoomInv env (handleMoveEnd env s).vp) ∧
    (∀ (env : Env) (s : EngineState) (incoming : List ParsedEvent),
      zoomInv env s.vp → zoomInv env (handlePinch env s incoming).vp) ∧
    (∀ (env : Env) (dir : Dir) (s : EngineState),
      zoomInv env (requestMove env dir s).vp) :=
  ⟨changeZoom_zoomInv, handleMove_zoomInv, handleMoveEnd_zoomInv,
    handlePinch_zoomInv, requestMove_zoomInv⟩

/-- C2 counterexample: along the concrete reachable trace zoom-in, pan
start, mid-pan zoom-out to minimum, pan move — every step one of the
operations the claim lists — the state before the final pan move satisfies
the invariant, and the pan move breaks it: the offset becomes (10, 0) at
minimum zoom. -/
theorem minZoom_invariant_cex :
    zoomInv env1 c2s3.vp ∧ ¬ zoomInv env1 c2s4.vp := by
  have h3 : c2s3.vp = ⟨0, 0, 0⟩ := by
    norm_num [c2s3, c2s2, c2s1, changeZoomE, changeZoom, clampQ, minQ, maxQ,
      env1, img1, multStep, pointerXOf, pointerYOf, getMaxOffsets,
      handleMoveStart, engine0]
  have h4 : c2s4.vp = ⟨0, 10, 0⟩ := by
    have hms : c2s3.moveStartX = 10 ∧ c2s3.moveStartY = 0 ∧
        c2s3.moveStartOffsetX = 0 ∧ c2s3.moveStartOffsetY = 0 := by
      refine ⟨?_, ?_, ?_, ?_⟩ <;>
        norm_num [c2s3, c2s2, c2s1, changeZoomE, changeZoom, clampQ, minQ,
          maxQ, env1, img1, multStep, pointerXOf, pointerYOf, getMaxOffsets,
          handleMoveStart, engine0]
    show (handleMove c2s3 ⟨PId.mouse, Source.MOUSE, 0, 0⟩).vp = ⟨0, 10, 0⟩
    simp only [handleMove, hms.1, hms.2.1, hms.2.2.1, hms.2.2.2, h3]
    norm_num
  constructor
  · rw [h3]
    intro _
    exact ⟨rfl, rfl⟩
  · rw [h4]
    intro hinv
    have h0 : ((⟨0, 10, 0⟩ : ViewportState)).zoomLevel = env1.minZoom := by
      norm_num [env1]
    have := (hinv h0).1
    norm_num at this

theorem minZoom_invariant_witness :
    zoomInv env1 (changeZoom env1 Action.NONE ⟨1, 5, 5⟩ 2 none none) :=
  minZoom_invariant_amended.1 env1 Action.NONE ⟨1, 5, 5⟩ 2 none none
    (fun hz => absurd hz (by norm_num [env1]))

theorem changeZoom_zoomLevel_eq (env : Env) (act : Action)
    (vp : ViewportState) (t : ℚ) (cx cy : Option ℚ) (img : ImgInfo)
    (hE : env.enableZoom = true) (himg : env.image = some img) :
    (changeZoom env act vp t cx cy).zoomLevel =
      if clampQ env.minZoom env.maxZoom t = vp.zoomLevel then vp.zoomLevel
      else clampQ env.minZoom env.maxZoom t := by
  by_cases h1 : clampQ env.minZoom env.maxZoom t = vp.zoomLevel
  · rw [if_pos h1, changeZoom_same env act vp t cx cy hE h1]
  · rw [if_neg h1]
    by_cases h2 : clampQ env.minZoom env.maxZoom t = env.minZoom
    · rw [changeZoom_min env act vp t cx cy hE h1 h2]
    · by_cases h3 : act ≠ Action.PINCH ∧
          clampQ env.minZoom env.maxZoom t < vp.zoomLevel
      · rw [changeZoom_main_clamped env act vp t cx cy img hE h1 h2 himg h3]
      · rw [changeZoom_main env act vp t cx cy img hE h1 h2 himg h3]

/-- C6: a pinch move step re-matches the snapshot by pointer identity,
stores the newly computed distance (delta integration against the stored
distance, not the original one), and drives changeZoom with
zoomLevel + (newDistance − storedDistance) anchored at the pinch center;
with zoom enabled, an image size known, and the level within bounds, the
resulting zoom level is strictly monotonic in the distance delta — an
increase strictly raises the level or holds it at MAX_ZOOM, a decrease
strictly lowers it or holds it at MIN_ZOOM. -/
theorem pinch_step_monotone (env : Env) (s : EngineState)
    (incoming : List ParsedEvent) (img : ImgInfo)
    (hE : env.enableZoom = true) (himg : env.image = some img)
    (hlo : env.minZoom ≤ s.vp.zoomLevel)
    (hhi : s.vp.zoomLevel ≤ env.maxZoom) :
    (handlePinch env s incoming).pinchDistance =
      calcPinchDistance env (pinchMatched s incoming) ∧
    (handlePinch env s incoming).pinchTouchList = pinchMatched s incoming ∧
    (handlePinch env s incoming).vp =
      changeZoom env s.currentAction s.vp
        (s.vp.zoomLevel +
          (calcPinchDistance env (pinchMatched s incoming) -
            s.pinchDistance))
        (some (calcPinchCenter (pinchMatched s incoming)).1)
        (some (calcPinchCenter (pinchMatched s incoming)).2) ∧
    (s.pinchDistance < calcPinchDistance env (pinchMatched s incoming) →
      s.vp.zoomLevel < (handlePinch env s incoming).vp.zoomLevel ∨
        ((handlePinch env s incoming).vp.zoomLevel = s.vp.zoomLevel ∧
          s.vp.zoomLevel = env.maxZoom)) ∧
    (calcPinchDistance env (pinchMatched s incoming) < s.pinchDistance →
      (handlePinch env s incoming).vp.zoomLevel < s.vp.zoomLevel ∨
        ((handlePinch env s incoming).vp.zoomLevel = s.vp.zoomLevel ∧
          s.vp.zoomLevel = env.minZoom)) := by
  have hzl := changeZoom_zoomLevel_eq env s.currentAction s.vp
    (s.vp.zoomLevel + calcPinchDistance env (pinchMatched s incoming) -
      s.pinchDistance)
    (some (calcPinchCenter (pinchMatched s incoming)).1)
    (some (calcPinchCenter (pinchMatched s incoming)).2) img hE himg
  refine ⟨rfl, rfl, ?_, ?_, ?_⟩
  · rw [handlePinch_vp, add_sub_assoc]
  · intro hd
    rw [handlePinch_vp, hzl]
    have ht : s.vp.zoomLevel <
        s.vp.zoomLevel + calcPinchDistance env (pinchMatched s incoming) -
          s.pinchDistance := by linarith
    by_cases hmax : s.vp.zoomLevel = env.maxZoom
    · have hclamp : clampQ env.minZoom env.maxZoom
          (s.vp.zoomLevel + calcPinchDistance env (pinchMatched s incoming) -
            s.pinchDistance) = s.vp.zoomLevel := by
        rw [clampQ_eq, min_eq_left (hmax ▸ ht.le),
          max_eq_right (hlo.trans hhi)]
        exact hmax.symm
      rw [if_pos hclamp]
      exact Or.inr ⟨rfl, hmax⟩
    · have hzlt : s.vp.zoomLevel < clampQ env.minZoom env.maxZoom
          (s.vp.zoomLevel + calcPinchDistance env (pinchMatched s incoming) -
            s.pinchDistance) := by
        rw [clampQ_eq]
        exact (lt_min (lt_of_le_of_ne hhi hmax) ht).trans_le
          (le_max_right _ _)
      rw [if_neg hzlt.ne']
      exact Or.inl hzlt
  · intro hd
    rw [handlePinch_vp, hzl]
    have ht : s.vp.zoomLevel + calcPinchDistance env (pinchMatched s incoming) -
        s.pinchDistance < s.vp.zoomLevel := by linarith
    by_cases hmin : s.vp.zoomLevel = env.minZoom
    · have hclamp : clampQ env.minZoom env.maxZoom
          (s.vp.zoomLevel + calcPinchDistance env (pinchMatched s incoming) -
            s.pinchDistance) = s.vp.zoomLevel := by
        rw [clampQ_eq, min_eq_right (le_of_lt (ht.trans_le hhi)),
          max_eq_left (hmin ▸ ht.le)]
        exact hmin.symm
      rw [if_pos hclamp]
      exact Or.inr ⟨rfl, hmin⟩
    · have hlt : clampQ env.minZoom env.maxZoom
          (s.vp.zoomLevel + calcPinchDistance env (pinchMatched s incoming) -
            s.pinchDistance) < s.vp.zoomLevel := by
        rw [clampQ_eq, min_eq_right (le_of_lt (ht.trans_le hhi))]
        exact max_lt (lt_of_le_of_ne hlo (fun hh => hmin hh.symm)) ht
      rw [if_neg hlt.ne]
      exact Or.inl hlt

theorem pinch_step_monotone_witness :
    sPinch.vp.zoomLevel < (handlePinch env1 sPinch incoming1).vp.zoomLevel ∨
      ((handlePinch env1 sPinch incoming1).vp.zoomLevel =
          sPinch.vp.zoomLevel ∧
        sPinch.vp.zoomLevel = env1.maxZoom) :=
  (pinch_step_monotone env1 sPinch incoming1 img1 rfl rfl
      (by norm_num [env1, sPinch, engine0])
      (by norm_num [env1, sPinch, engine0])).2.2.2.1
    (by norm_num [sPinch, engine0, calcPinchDistance, pinchMatched,
      incoming1, p1, p2, env1, List.find?])

theorem clearFlags_false (props : String → Option String) (role : String) :
    ∀ (l : List String) (f : String → Bool), f role = false →
      clearFlags props l f role = false := by
  intro l
  induction l with
  | nil => exact fun f h => h
  | cons t rest ih =>
    intro f h
    unfold clearFlags
    by_cases hc : (props t).isSome = true ∧ f t = true
    · rw [if_pos hc]
      apply ih
      show (if role = t then false else f role) = false
      by_cases hrt : role = t
      · rw [if_pos hrt]
      · rw [if_neg hrt]
        exact h
    · rw [if_neg hc]
      exact ih f h

theorem clearFlags_mem (props : String → Option String) (role : String)
    (hsome : (props role).isSome = true) :
    ∀ (l : List String) (f : String → Bool), role ∈ l →
      clearFlags props l f role = false := by
  intro l
  induction l with
  | nil => exact fun f h => absurd h (List.not_mem_nil role)
  | cons t rest ih =>
    intro f hrole
    unfold clearFlags
    by_cases hrt : role = t
    · subst hrt
      by_cases hc : (props role).isSome = true ∧ f role = true
      · rw [if_pos hc]
        apply clearFlags_false
        show (if role = role then false else f role) = false
        rw [if_pos rfl]
      · rw [if_neg hc]
        apply clearFlags_false
        cases hf : f role
        · rfl
        · exact absurd ⟨hsome, hf⟩ hc
    · have hrest : role ∈ rest := by
        rcases List.mem_cons.mp hrole with h | h
        · exact absurd h hrt
        · exact h
      by_cases hc : (props t).isSome = true ∧ f t = true
      · rw [if_pos hc]
        exact ih _ hrest
      · rw [if_neg hc]
        exact ih f hrest

/-- C8 (amended): on load success the cache entry {loaded, width, height} is
stored keyed by the loaded URL and a render invalidation is signalled
exactly when the role's live URL still equals the requested URL and the
component has not unmounted; the success callback leaves every error flag
untouched (the flag is instead cleared when loadAllImages next issues a
load for a role with a present URL); and a completion whose URL was
superseded by B neither touches B's cache entry nor signals invalidation. -/
theorem load_success_amended (props : String → Option String)
    (srcType imageSrc : String) (w h : ℚ) (st : LoadState) :
    (imageOnLoadSuccess props srcType imageSrc w h st).imageCache imageSrc =
      some ⟨true, w, h⟩ ∧
    (imageOnLoadSuccess props srcType imageSrc w h st).loadErrorStatus =
      st.loadErrorStatus ∧
    ((imageOnLoadSuccess props srcType imageSrc w h st).invalidated = true ↔
      st.invalidated = true ∨
        (props srcType = some imageSrc ∧ st.didUnmount = false)) ∧
    (∀ B, props srcType = some B → B ≠ imageSrc →
      (imageOnLoadSuccess props srcType imageSrc w h st).imageCache B =
        st.imageCache B ∧
      (imageOnLoadSuccess props srcType imageSrc w h st).invalidated =
        st.invalidated) ∧
    (∀ role, role ∈ srcTypeNames → (props role).isSome = true →
      (loadAllImagesClear props st).loadErrorStatus role = false) := by
  by_cases hc : props srcType ≠ some imageSrc ∨ st.didUnmount = true
  · have he : imageOnLoadSuccess props srcType imageSrc w h st =
        { st with
          imageCache := fun k =>
            if k = imageSrc then some ⟨true, w, h⟩ else st.imageCache k } := by
      simp only [imageOnLoadSuccess]
      rw [if_pos hc]
    rw [he]
    refine ⟨by simp, rfl, ?_, ?_, ?_⟩
    · show st.invalidated = true ↔ _
      rcases hc with hc | hc
      · simp [hc]
      · simp [hc]
    · intro B hB hBne
      refine ⟨?_, rfl⟩
      show (if B = imageSrc then some (⟨true, w, h⟩ : CacheEntry)
        else st.imageCache B) = st.imageCache B
      rw [if_neg hBne]
    · intro role hrole hsome
      exact clearFlags_mem props role hsome srcTypeNames st.loadErrorStatus
        hrole
  · push_neg at hc
    have he : imageOnLoadSuccess props srcType imageSrc w h st =
        { st with
          imageCache := fun k =>
            if k = imageSrc then some ⟨true, w, h⟩ else st.imageCache k
          invalidated := true } := by
      simp only [imageOnLoadSuccess]
      rw [if_neg]
      push_neg
      exact hc
    rw [he]
    refine ⟨by simp, rfl, ?_, ?_, ?_⟩
    · have hdu : st.didUnmount = false := by
        cases hdm : st.didUnmount
        · rfl
        · exact absurd hdm hc.2
      exact iff_of_true rfl (Or.inr ⟨hc.1, hdu⟩)
    · intro B hB hBne
      exact absurd (Option.some.inj (hB ▸ hc.1)) hBne
    · intro role hrole hsome
      exact clearFlags_mem props role hsome srcTypeNames st.loadErrorStatus
        hrole

/-- C8 counterexample: with role mainSrc superseded from URL A to URL B, A's
stale failure sets the role's error flag, and B's subsequent successful
completion — whose live URL matches and which does signal invalidation —
leaves the error flag set instead of clearing it, contradicting the claim
that success clears the role's error flag. -/
theorem load_success_cex :
    load2.loadErrorStatus "mainSrc" = true ∧
    load2.imageCache "B" = some ⟨true, 100, 100⟩ ∧
    load2.invalidated = true := by
  refine ⟨?_, ?_, ?_⟩ <;>
    simp [load2, load1, load0, imageOnLoadSuccess, imageOnLoadFailure, propsB]

theorem load_success_witness :
    (loadAllImagesClear propsA load1).loadErrorStatus "mainSrc" = false :=
  (load_success_amended propsA "mainSrc" "A" 1 1 load1).2.2.2.2 "mainSrc"
    (by simp [srcTypeNames]) (by simp [propsA])

end Lightbox
